import Mathlib

/- Verification of the manuals-mcp documentation indexing and search subsystem.

   The definitions below are a shallow embedding, translated from the Go
   sources: internal/indexer/parser.go, internal/indexer/indexer.go,
   internal/db/queries.go and internal/db/schema.go.  Strings are modelled as
   Lean String values (lists of characters); Go byte indexing coincides with
   character indexing on the ASCII inputs exercised here.  Case folding is
   modelled on ASCII, matching Go for the inputs that occur. -/

/-! ### Go string primitives (strings package) -/

/-- Model of the white space class used by strings.TrimSpace / strings.Fields
    (ASCII part of unicode.IsSpace). -/
def goIsSpace (c : Char) : Bool :=
  c = ' ' || c = '\t' || c = '\n' || c = '\r' || c = '\x0b' || c = '\x0c'

/-- Drop trailing characters satisfying p. -/
def dropTrailing (p : Char → Bool) (cs : List Char) : List Char :=
  (cs.reverse.dropWhile p).reverse

/-- Model of strings.TrimSpace. -/
def goTrimSpace (s : String) : String :=
  String.mk (dropTrailing goIsSpace (s.data.dropWhile goIsSpace))

/-- Model of strings.ToLower (ASCII case folding). -/
def goToLower (s : String) : String :=
  String.mk (s.data.map Char.toLower)

/-- Model of strings.HasPrefix. -/
def goStartsWith (s pre : String) : Bool :=
  pre.data.isPrefixOf s.data

/-- Model of strings.HasSuffix. -/
def goEndsWith (s suf : String) : Bool :=
  suf.data.isSuffixOf s.data

/-- Substring occurrence test on character lists (model of strings.Contains). -/
def hasSubstring (s sub : List Char) : Bool :=
  match s with
  | [] => sub.isEmpty
  | c :: rest => sub.isPrefixOf (c :: rest) || hasSubstring rest sub

/-- Model of strings.Contains. -/
def goContains (s sub : String) : Bool :=
  hasSubstring s.data sub.data

/-- Index of the first occurrence of sub in s (model of strings.Index). -/
def indexOfSub (s sub : List Char) : Option Nat :=
  match s with
  | [] => if sub.isEmpty then some 0 else none
  | c :: rest =>
    if sub.isPrefixOf (c :: rest) then some 0
    else (indexOfSub rest sub).map (· + 1)

/-- Split a character list at every character satisfying p, keeping empty
    fields (generalizes strings.Split for a one-character separator). -/
def splitByPred (p : Char → Bool) : List Char → List (List Char)
  | [] => [[]]
  | c :: cs =>
    if p c then [] :: splitByPred p cs
    else
      match splitByPred p cs with
      | [] => [[c]]
      | f :: rest => (c :: f) :: rest

/-- Model of strings.Split with a one-character separator. -/
def goSplitChar (s : String) (sep : Char) : List String :=
  (splitByPred (fun c => c = sep) s.data).map String.mk

/-- Model of strings.FieldsFunc: maximal runs of characters not satisfying p. -/
def goFieldsFunc (s : String) (p : Char → Bool) : List String :=
  ((splitByPred p s.data).filter (fun f => f ≠ [])).map String.mk

/-- Model of strings.Fields. -/
def goFields (s : String) : List String :=
  goFieldsFunc s goIsSpace

/-- Model of strings.ReplaceAll with one-character old and new strings. -/
def replaceChar (s : String) (a b : Char) : String :=
  String.mk (s.data.map (fun c => if c = a then b else c))

/-- Model of strings.ReplaceAll s "\x22" "\x22\x22": double every double quote. -/
def escapeQuotes (s : String) : String :=
  String.mk (s.data.foldr (fun c acc => if c = '"' then '"' :: '"' :: acc else c :: acc) [])

/-- Digit-string parser underlying the Atoi model. -/
def parseDigits (ds : List Char) : Option Nat :=
  match ds with
  | [] => none
  | _ =>
    if ds.all Char.isDigit then
      some (ds.foldl (fun a c => a * 10 + (c.toNat - '0'.toNat)) 0)
    else none

/-- Model of strconv.Atoi: optional sign then one or more digits and nothing
    else.  The 64-bit range check is not modelled; no input here approaches it. -/
def goAtoi (s : String) : Option Int :=
  match s.data with
  | [] => none
  | '+' :: ds => (parseDigits ds).map Int.ofNat
  | '-' :: ds => (parseDigits ds).map (fun n => -(n : Int))
  | ds => (parseDigits ds).map Int.ofNat

/-- Drop a single trailing carriage return (bufio.ScanLines dropCR). -/
def dropCR (cs : List Char) : List Char :=
  match cs.getLast? with
  | some '\r' => cs.dropLast
  | _ => cs

/-- The token stream produced by a bufio.Scanner with ScanLines: split at every
    newline; a trailing newline yields no extra empty token; empty input yields
    no tokens. -/
def goLines (s : String) : List String :=
  if s.data = [] then []
  else
    let parts := splitByPred (fun c => c = '\n') s.data
    let parts := if parts.getLast? = some [] then parts.dropLast else parts
    parts.map (fun cs => String.mk (dropCR cs))

/-! ### Data model (pkg/models) -/

/-- models.Domain. -/
inductive Domain where
  | hardware
  | software
  | protocol
deriving Repr, DecidableEq

/-- models.Pinout.  Go int is modelled by Int; pointer fields by Option. -/
structure Pinout where
  physicalPin : Int
  gpio : Option Int
  name : String
  defaultPull : Option String
  altFunctions : List String
  description : Option String
deriving Repr, DecidableEq

/-- One dynamically typed metadata value (Go interface value).  A Go value of
    type []interface left by a JSON round trip is modelled by anyList, carrying
    the fmt.Sprint rendering of each element; a []string value (as produced by
    buildMetadata from frontmatter) is modelled by strList; a nested
    map[string]interface is modelled by nested with rendered values.  The
    distinction matters because a Go type assertion to []interface succeeds
    only on anyList. -/
inductive MetaVal where
  | str (s : String)
  | strList (xs : List String)
  | anyList (xs : List String)
  | nested (kvs : List (String × String))
deriving Repr, DecidableEq

/-- indexer.Frontmatter (YAML frontmatter fields). -/
structure Frontmatter where
  manufacturer : String := ""
  model : String := ""
  category : String := ""
  version : String := ""
  date : String := ""
  tags : List String := []
  datasheets : List String := []
  relatedHardware : List String := []
  specs : List (String × String) := []
deriving Repr, DecidableEq

/-- indexer.ParsedDocument.  Metadata is an association list in the insertion
    order of buildMetadata; Go map iteration order is irrelevant to every
    lookup performed on it. -/
structure ParsedDocument where
  metadata : List (String × MetaVal)
  content : String
  pinouts : List Pinout
  domain : Domain
  type : String
  id : String
deriving Repr, DecidableEq

/-- Lookup in an association-list metadata map. -/
def metaLookup (m : List (String × MetaVal)) (k : String) : Option MetaVal :=
  match m.find? (fun kv => kv.1 = k) with
  | some kv => some kv.2
  | none => none

/-! ### parser.go -/

/-- extractFrontmatter (parser.go).  The YAML unmarshaller is an external
    dependency, passed as the fallible function yamlParse; the function is
    otherwise a direct transcription.  Go slices bytes, modelled by character
    positions (the delimiters are ASCII). -/
def extractFrontmatter (yamlParse : String → Except String Frontmatter)
    (content : String) : Except String (Frontmatter × String) :=
  if !(goStartsWith content "---\n") then
    Except.ok ({}, content)
  else
    match indexOfSub (content.data.drop 4) ("\n---".data) with
    | none => Except.ok ({}, content)
    | some endIndex =>
      let yamlContent := String.mk ((content.data.drop 4).take endIndex)
      let body := goTrimSpace (String.mk (content.data.drop (endIndex + 8)))
      match yamlParse yamlContent with
      | Except.error e => Except.error ("failed to parse YAML frontmatter: " ++ e)
      | Except.ok fm => Except.ok (fm, body)

/-- buildMetadata (parser.go): retain only non-empty fields, in source order. -/
def buildMetadata (fm : Frontmatter) : List (String × MetaVal) :=
  (if fm.manufacturer ≠ "" then [("manufacturer", MetaVal.str fm.manufacturer)] else []) ++
  (if fm.model ≠ "" then [("model", MetaVal.str fm.model)] else []) ++
  (if fm.category ≠ "" then [("category", MetaVal.str fm.category)] else []) ++
  (if fm.version ≠ "" then [("version", MetaVal.str fm.version)] else []) ++
  (if fm.date ≠ "" then [("date", MetaVal.str fm.date)] else []) ++
  (if fm.tags ≠ [] then [("tags", MetaVal.strList fm.tags)] else []) ++
  (if fm.datasheets ≠ [] then [("datasheets", MetaVal.strList fm.datasheets)] else []) ++
  (if fm.relatedHardware ≠ [] then [("related_hardware", MetaVal.strList fm.relatedHardware)] else []) ++
  (if fm.specs ≠ [] then [("specs", MetaVal.nested fm.specs)] else [])

/-- Default-pull cell handling from parsePinoutRow (parser.go lines 237-251):
    the fourth clean cell, when present, is lowercased and scanned for the
    words high, low, none, in that order. -/
def parseDefaultPull (cell? : Option String) : Option String :=
  match cell? with
  | none => none
  | some cell =>
    let pullStr := goToLower cell
    if goContains pullStr "high" then some "high"
    else if goContains pullStr "low" then some "low"
    else if goContains pullStr "none" then some "none"
    else none

/-- Alt-functions cell handling from parsePinoutRow (fifth clean cell):
    comma separated, trimmed, empties dropped; a dash placeholder means empty. -/
def parseAltFunctions (cell? : Option String) : List String :=
  match cell? with
  | none => []
  | some cell =>
    if cell ≠ "-" && cell ≠ "" then
      ((goSplitChar cell ',').map goTrimSpace).filter (fun s => s ≠ "")
    else []

/-- Description cell handling from parsePinoutRow (sixth clean cell). -/
def parseDescription (cell? : Option String) : Option String :=
  match cell? with
  | none => none
  | some cell => if cell ≠ "-" && cell ≠ "" then some cell else none

/-- parsePinoutRow (parser.go): split on the pipe, trim, drop empty cells,
    require at least three cells and an integer first column, else none. -/
def parsePinoutRow (row : String) : Option Pinout :=
  let cleanCells := ((goSplitChar row '|').map goTrimSpace).filter (fun s => s ≠ "")
  match cleanCells with
  | c0 :: c1 :: c2 :: rest =>
    match goAtoi c0 with
    | none => none
    | some physicalPin =>
      let gpio := if c1 ≠ "-" && c1 ≠ "" then goAtoi c1 else none
      let name := if c2 = "-" then "" else c2
      some { physicalPin := physicalPin
             gpio := gpio
             name := name
             defaultPull := parseDefaultPull rest.head?
             altFunctions := parseAltFunctions rest[1]?
             description := parseDescription rest[2]? }
  | _ => none

/-- The mutable scanner state of the extractPinouts loop (parser.go 143-198). -/
structure ScanState where
  inTable : Bool
  headerFound : Bool
  pinouts : List Pinout
deriving Repr, DecidableEq

/-- One iteration of the extractPinouts line loop, transcribed branch by
    branch; each Go continue corresponds to returning the updated state.
    The trimmed-empty check inside the row branch is unreachable (an empty
    string contains no pipe) and is omitted. -/
def pinoutStep (st : ScanState) (line : String) : ScanState :=
  let trimmed := goTrimSpace line
  if !st.inTable && goContains trimmed "|" &&
      (let lowerLine := goToLower trimmed
       (goContains lowerLine "physical" && goContains lowerLine "pin") ||
       (goContains lowerLine "| pin |" || goStartsWith lowerLine "| pin")) then
    { st with headerFound := true }
  else if st.headerFound && goContains trimmed "|" && goContains trimmed "-" then
    { st with inTable := true }
  else if st.inTable && goContains trimmed "|" then
    match parsePinoutRow trimmed with
    | some p => { st with pinouts := st.pinouts ++ [p] }
    | none => st
  else if st.inTable && !goContains trimmed "|" then
    { st with inTable := false, headerFound := false }
  else st

/-- extractPinouts (parser.go), over the scanner lines of the body. -/
def extractPinouts (lines : List String) : List Pinout :=
  (lines.foldl pinoutStep { inTable := false, headerFound := false, pinouts := [] }).pinouts

/-- getDomainFromCategory (parser.go 289-308). -/
def getDomainFromCategory (category : String) : Domain :=
  let lowerCat := goToLower category
  if goStartsWith lowerCat "libraries/" || goStartsWith lowerCat "frameworks/" ||
     goStartsWith lowerCat "applications/" || goStartsWith lowerCat "software/" then
    Domain.software
  else if goStartsWith lowerCat "protocols/" || goStartsWith lowerCat "protocol/" then
    Domain.protocol
  else
    Domain.hardware

/-- getTypeFromCategory (parser.go 311-317).  Go strings.Split never returns
    an empty slice, so the source branch returning the word unknown for a
    zero-length slice is dead; the empty-list case is kept for fidelity. -/
def getTypeFromCategory (category : String) : String :=
  match goSplitChar category '/' with
  | [] => "unknown"
  | p :: ps => (p :: ps).getLast (List.cons_ne_nil p ps)

/-- Replacement semantics of regexp.ReplaceAllString for a pattern of the form
    one-or-more characters outside a class: each maximal run of characters not
    satisfying good is replaced by a single dash.  The Boolean argument records
    whether the previous character was inside such a run. -/
def replaceRunsAux (good : Char → Bool) : Bool → List Char → List Char
  | _, [] => []
  | inRun, c :: cs =>
    if good c then c :: replaceRunsAux good false cs
    else if inRun then replaceRunsAux good true cs
    else '-' :: replaceRunsAux good true cs

/-- Replace every maximal run of characters not satisfying good by a dash. -/
def replaceRuns (good : Char → Bool) (cs : List Char) : List Char :=
  replaceRunsAux good false cs

/-- Character class [a-z0-9]. -/
def isLowerAlnum (c : Char) : Bool :=
  ('a' ≤ c && c ≤ 'z') || ('0' ≤ c && c ≤ '9')

/-- generateDeviceID (parser.go 320-330): normalize the category (slashes to
    dashes, lowercase, runs outside [a-z0-9-] to a dash) and the model
    (lowercase, runs outside [a-z0-9] to a dash, trim dashes), join by a dash. -/
def generateDeviceID (category model : String) : String :=
  let catNorm := replaceChar category '/' '-'
  let catNorm := String.mk (replaceRuns (fun c => isLowerAlnum c || c = '-') (goToLower catNorm).data)
  let modelNorm := String.mk (replaceRuns isLowerAlnum (goToLower model).data)
  let modelNorm := String.mk (dropTrailing (fun c => c = '-') (modelNorm.data.dropWhile (fun c => c = '-')))
  catNorm ++ "-" ++ modelNorm

/-- dropWhile never lengthens a list. -/
theorem dropWhile_shorter {α : Type} (p : α → Bool) (l : List α) :
    (l.dropWhile p).length ≤ l.length := by
  induction l with
  | nil => simp
  | cons c cs ih =>
    by_cases h : p c
    · simp only [List.dropWhile_cons, h, if_true, List.length_cons]
      omega
    · simp [List.dropWhile_cons, h]

/-- Run collapsing exactly as the specification words it: a run of characters
    outside the class becomes a single dash, by skipping past the rest of the
    run.  Written independently of replaceRuns; the two are proved equal. -/
def collapseRuns (good : Char → Bool) : List Char → List Char
  | [] => []
  | c :: cs =>
    if good c then c :: collapseRuns good cs
    else '-' :: collapseRuns good (cs.dropWhile (fun d => !good d))
termination_by cs => cs.length
decreasing_by
  · simp only [List.length_cons]
    omega
  · simp only [List.length_cons]
    exact Nat.lt_succ_of_le (dropWhile_shorter _ _)

/-- The device ID algorithm as the specification states it, for comparison
    with the source transcription generateDeviceID: replace slashes with
    dashes in the category, lowercase, collapse every run of characters
    outside [a-z0-9-] into a single dash; lowercase the model and collapse
    every run of non-alphanumeric characters into a single dash, then trim
    leading and trailing dashes; concatenate the two parts with a dash. -/
def generateDeviceIDRef (category model : String) : String :=
  let catPart := String.mk (collapseRuns (fun c => isLowerAlnum c || c = '-')
    (goToLower (replaceChar category '/' '-')).data)
  let modelCollapsed := collapseRuns isLowerAlnum (goToLower model).data
  let modelPart := String.mk (dropTrailing (fun c => c = '-') (modelCollapsed.dropWhile (fun c => c = '-')))
  catPart ++ "-" ++ modelPart

/-! ### queries.go: search query builder -/

/-- buildFTSQuery (queries.go 240-270).  The hyphen heuristic splits the whole
    trimmed query at dash characters (strings.FieldsFunc) and fires when more
    than one field remains; the whole query is then quoted.  Otherwise the
    query is split into words and each word containing a dash is quoted. -/
def buildFTSQuery (query0 : String) : String :=
  let query := goTrimSpace query0
  if query = "" then ""
  else
    let hasModelHyphens := goContains query "-" &&
      decide (1 < (goFieldsFunc query (fun r => r = '-')).length)
    if hasModelHyphens then
      "\"" ++ escapeQuotes query ++ "\""
    else
      let words := (goFields query).map (fun word =>
        if goContains word "-" then "\"" ++ escapeQuotes word ++ "\"" else word)
      String.intercalate " " words

/-! ### Storage writer (queries.go InsertDevice against the schema.go schema) -/

/-- models.Device, with the fields read by InsertDevice.  The indexed-at
    timestamp is irrelevant to every statement proved here and is omitted. -/
structure Device where
  id : String
  domain : Domain
  type : String
  name : String
  path : String
  metadata : List (String × MetaVal)
  content : String
deriving Repr, DecidableEq

/-- One row of the search_fts FTS5 table (schema.go 76-82). -/
structure FtsRow where
  deviceId : String
  name : String
  content : String
  tags : String
deriving Repr, DecidableEq

/-- The persisted store: the devices table (id is the primary key) and the
    search_fts table in rowid order.  search_fts is an FTS5 virtual table and
    declares no primary key or unique constraint. -/
structure DBState where
  devices : List Device
  searchFts : List FtsRow
deriving Repr, DecidableEq

/-- The empty store, as produced by InitDatabase or ClearDatabase. -/
def dbEmpty : DBState := { devices := [], searchFts := [] }

/-- Columns of the devices table as created by the schema constant
    (schema.go 15-23). -/
def devicesTableCols : List String :=
  ["id", "domain", "type", "name", "path", "metadata", "indexed_at"]

/-- Columns named by the devices INSERT in InsertDevice (queries.go 22-25). -/
def insertDeviceCols : List String :=
  ["id", "domain", "type", "name", "path", "content", "metadata"]

/-- The tags string built by InsertDevice (queries.go 31-38): the Go type
    assertion of metadata tags to []interface succeeds only for a value of
    dynamic type []interface (MetaVal.anyList); in every other case, including
    the []string produced by buildMetadata, tags stays empty. -/
def ftsTags (metadata : List (String × MetaVal)) : String :=
  match metaLookup metadata "tags" with
  | some (MetaVal.anyList xs) => String.intercalate " " xs
  | _ => ""

/-- Executing the devices INSERT OR REPLACE: SQLite rejects the statement when
    it names a column the table does not have; otherwise the primary key on id
    gives replace semantics (the conflicting row is deleted, the new row
    inserted). -/
def execInsertDevices (s : DBState) (d : Device) : Except String DBState :=
  match insertDeviceCols.find? (fun c => !devicesTableCols.contains c) with
  | some missing => Except.error ("table devices has no column named " ++ missing)
  | none => Except.ok { s with devices := s.devices.filter (fun r => r.id ≠ d.id) ++ [d] }

/-- Executing the search_fts INSERT OR REPLACE: an FTS5 table has no unique
    constraint and the statement supplies no rowid, so no conflict can arise
    and the OR REPLACE clause never fires; the row is appended. -/
def execInsertSearchFts (s : DBState) (r : FtsRow) : DBState :=
  { s with searchFts := s.searchFts ++ [r] }

/-- InsertDevice (queries.go 14-49): run the devices INSERT, then the
    search_fts INSERT; the first failure aborts with a wrapped error and
    leaves the remaining statements unexecuted. -/
def InsertDevice (s : DBState) (device : Device) : Except String DBState :=
  match execInsertDevices s device with
  | Except.error e => Except.error ("failed to insert device: " ++ e)
  | Except.ok s1 =>
    Except.ok (execInsertSearchFts s1
      { deviceId := device.id, name := device.name,
        content := device.content, tags := ftsTags device.metadata })

/-! ### Parser composition and indexing orchestrator (parser.go / indexer.go) -/

/-- The pure core of ParseMarkdownFile (parser.go 40-79), applied to the file
    content that os.ReadFile returned; the YAML unmarshaller is passed in. -/
def parseMarkdownContent (yamlParse : String → Except String Frontmatter)
    (content : String) : Except String ParsedDocument :=
  match extractFrontmatter yamlParse content with
  | Except.error e => Except.error ("failed to extract frontmatter: " ++ e)
  | Except.ok (frontmatter, body) =>
    let metadata := buildMetadata frontmatter
    let domain := getDomainFromCategory frontmatter.category
    let deviceType := getTypeFromCategory frontmatter.category
    let id := generateDeviceID frontmatter.category frontmatter.model
    let pinouts := if domain = Domain.hardware then extractPinouts (goLines body) else []
    Except.ok { metadata := metadata, content := body, pinouts := pinouts,
                domain := domain, type := deviceType, id := id }

/-- getDeviceName (indexer.go 163-178): prefer a non-empty model string; with
    a manufacturer string present and a model string present (possibly empty),
    join them; otherwise the literal Unknown. -/
def getDeviceName (metadata : List (String × MetaVal)) : String :=
  let modelVal := match metaLookup metadata "model" with
    | some (MetaVal.str s) => some s
    | _ => none
  let manufacturerVal := match metaLookup metadata "manufacturer" with
    | some (MetaVal.str s) => some s
    | _ => none
  match modelVal, manufacturerVal with
  | some model, some manufacturer =>
    if model ≠ "" then model else manufacturer ++ " " ++ model
  | some model, none => if model ≠ "" then model else "Unknown"
  | none, _ => "Unknown"

/-- Outcome of one pinouts write (db.InsertPinouts inserts row by row, so a
    failure can leave a proper prefix of the rows behind). -/
inductive PinWriteOutcome where
  | ok
  | failAfter (written : Nat)
deriving Repr, DecidableEq

/-- One callback invocation of the filepath.Walk in IndexDocumentation
    (indexer.go 51-130).  Results of the external collaborators (file parse,
    device write, pinouts write) are oracle parameters of the entry, so the
    control flow of the orchestrator can be analysed for every outcome. -/
inductive WalkEntry where
  | accessError (path : String)
  | dir (path : String)
  | file (path : String) (parsed : Except String ParsedDocument)
      (deviceWriteOk : Bool) (pinoutWrite : PinWriteOutcome)
deriving Repr

/-- The aggregate state of one indexing run: the counters of IndexResult,
    the per-domain counts, the devices written and the pinout rows written
    (pinouts table rows, keyed by device id and physical pin). -/
structure IndexState where
  totalFiles : Nat
  successCount : Nat
  errorCount : Nat
  hardwareCount : Nat
  softwareCount : Nat
  protocolCount : Nat
  devices : List Device
  pinoutRows : List (String × Pinout)
deriving Repr, DecidableEq

/-- The state at the start of a run. -/
def initialIndexState : IndexState :=
  { totalFiles := 0, successCount := 0, errorCount := 0,
    hardwareCount := 0, softwareCount := 0, protocolCount := 0,
    devices := [], pinoutRows := [] }

/-- Intended replace semantics of the devices upsert at the orchestrator seam
    (one row per device id). -/
def upsertDeviceRow (rows : List Device) (d : Device) : List Device :=
  rows.filter (fun r => r.id ≠ d.id) ++ [d]

/-- Replace semantics of the pinouts INSERT OR REPLACE, keyed by the unique
    pair of device id and physical pin (schema.go 30-41). -/
def insertPinoutRows (rows : List (String × Pinout)) (deviceId : String)
    (pins : List Pinout) : List (String × Pinout) :=
  pins.foldl (fun acc pin =>
    acc.filter (fun r => !(r.1 = deviceId && r.2.physicalPin = pin.physicalPin)) ++ [(deviceId, pin)]) rows

/-- The device record built for one parsed file (indexer.go 82-91). -/
def mkDevice (path : String) (doc : ParsedDocument) : Device :=
  { id := doc.id, domain := doc.domain, type := doc.type,
    name := getDeviceName doc.metadata, path := path,
    metadata := doc.metadata, content := doc.content }

/-- Bump the per-domain count (indexer.go 127). -/
def bumpDomain (st : IndexState) (d : Domain) : IndexState :=
  match d with
  | Domain.hardware => { st with hardwareCount := st.hardwareCount + 1 }
  | Domain.software => { st with softwareCount := st.softwareCount + 1 }
  | Domain.protocol => { st with protocolCount := st.protocolCount + 1 }

/-- The body of the Walk callback (indexer.go 51-130), transcribed branch by
    branch: access errors, directories and files without a markdown suffix
    touch nothing; a markdown file first bumps the total counter, then either
    the error counter (parse failure, device write failure) or the success and
    per-domain counters; a pinouts write failure after a successful device
    write is logged only. -/
def processEntry (st : IndexState) (e : WalkEntry) : IndexState :=
  match e with
  | WalkEntry.accessError _ => st
  | WalkEntry.dir _ => st
  | WalkEntry.file path parsed deviceWriteOk pinoutWrite =>
    if !goEndsWith (goToLower path) ".md" then st
    else
      let st1 := { st with totalFiles := st.totalFiles + 1 }
      match parsed with
      | Except.error _ => { st1 with errorCount := st1.errorCount + 1 }
      | Except.ok doc =>
        if !deviceWriteOk then { st1 with errorCount := st1.errorCount + 1 }
        else
          let device := mkDevice path doc
          let newDevices := upsertDeviceRow st1.devices device
          let newPinoutRows :=
            if 0 < doc.pinouts.length then
              match pinoutWrite with
              | PinWriteOutcome.ok =>
                insertPinoutRows st1.pinoutRows device.id doc.pinouts
              | PinWriteOutcome.failAfter k =>
                insertPinoutRows st1.pinoutRows device.id (doc.pinouts.take k)
            else st1.pinoutRows
          bumpDomain
            { st1 with
              devices := newDevices
              pinoutRows := newPinoutRows
              successCount := st1.successCount + 1 } doc.domain

/-- The walk of one indexing run, folded over its callback invocations. -/
def runIndexWalk (entries : List WalkEntry) : IndexState :=
  entries.foldl processEntry initialIndexState

/-- The CHECK constraint on pinouts.default_pull (schema.go 36): the value is
    NULL or one of high, low, none. -/
def defaultPullCheck (v : Option String) : Bool :=
  match v with
  | none => true
  | some s => s = "high" || s = "low" || s = "none"

/-! ### Theorems -/

/-- The two formulations of run collapsing agree: the stateful transcription
    of the regexp replacement equals the skip-the-run formulation of the
    specification.  The second conjunct is the invariant for the in-run state. -/
theorem replaceRunsAux_eq_collapseRuns (good : Char → Bool) (cs : List Char) :
    replaceRunsAux good false cs = collapseRuns good cs ∧
    replaceRunsAux good true cs = collapseRuns good (cs.dropWhile (fun d => !good d)) := by
  induction cs with
  | nil => constructor <;> simp [replaceRunsAux, collapseRuns]
  | cons c cs ih =>
    cases h : good c with
    | true =>
      constructor <;> simp [replaceRunsAux, collapseRuns, h, ih.1, List.dropWhile_cons]
    | false =>
      constructor <;> simp [replaceRunsAux, collapseRuns, h, ih.2, List.dropWhile_cons]

/-- C5: the device ID generator agrees with the reference definition stated by
    the specification on every input, and the worked example holds; being a
    pure function, identical inputs yield identical output by definition. -/
theorem generateDeviceID_matches_reference :
    (∀ category model, generateDeviceID category model = generateDeviceIDRef category model) ∧
    generateDeviceID "sensors/temperature" "DS18B20" = "sensors-temperature-ds18b20" := by
  constructor
  · intro category model
    simp only [generateDeviceID, generateDeviceIDRef, replaceRuns]
    rw [(replaceRunsAux_eq_collapseRuns _ _).1, (replaceRunsAux_eq_collapseRuns _ _).1]
  · rfl

/-- C1 counterexample: on the third example of the specification the query
    builder does not quote only the hyphenated word. -/
theorem buildFTSQuery_third_example_fails :
    buildFTSQuery "analog ds18b20-like sensor" ≠ "analog \"ds18b20-like\" sensor" := by
  decide

/-- C1 (amended): the first two examples hold as stated; for the third, the
    whole-query hyphen heuristic fires (the query splits into more than one
    hyphen-separated field), so the entire query is wrapped in double quotes
    instead of only the hyphenated word. -/
theorem buildFTSQuery_examples :
    buildFTSQuery "raspberry-pi-4" = "\"raspberry-pi-4\"" ∧
    buildFTSQuery "analog sensor" = "analog sensor" ∧
    buildFTSQuery "analog ds18b20-like sensor" = "\"analog ds18b20-like sensor\"" :=
  ⟨rfl, rfl, rfl⟩

/-- C2: evaluation of pinout extraction at the divergence point.  A table with
    a recognized Pin header, a separator and one well-formed data row whose
    GPIO cell is the dash placeholder yields no records, because the data row
    contains a dash and headerFound is never cleared, so the separator branch
    consumes the row; the same row with a numeric GPIO cell is parsed. -/
theorem extractPinouts_drops_dash_rows :
    extractPinouts ["| Pin | GPIO | Name |", "|-----|------|------|", "| 1 | - | GND |"] = [] ∧
    extractPinouts ["| Pin | GPIO | Name |", "|-----|------|------|", "| 1 | 4 | GND |"] =
      [{ physicalPin := 1, gpio := some 4, name := "GND", defaultPull := none,
         altFunctions := [], description := none }] :=
  ⟨rfl, rfl⟩

/-- C3: evaluation of the classifier at the empty category.  strings.Split
    of the empty string yields a one-element slice holding the empty string,
    so the type is the empty string, not the word unknown; the domain default
    is hardware. -/
theorem getTypeFromCategory_empty_category :
    getTypeFromCategory "" = "" ∧
    getTypeFromCategory "" ≠ "unknown" ∧
    getDomainFromCategory "" = Domain.hardware :=
  ⟨rfl, by decide, rfl⟩

/-- C4 counterexample: from the HeaderFound state, a line that is neither a
    pipe line nor a separator leaves the machine in HeaderFound rather than
    returning it to Searching, and a later separator therefore still starts a
    table whose rows are extracted. -/
theorem pinoutStep_headerFound_not_reset :
    pinoutStep { inTable := false, headerFound := true, pinouts := [] } "some text" =
      { inTable := false, headerFound := true, pinouts := [] } ∧
    extractPinouts ["| Pin | GPIO | Name |", "some text", "|---|---|---|", "| 1 | 4 | GND |"] =
      [{ physicalPin := 1, gpio := some 4, name := "GND", defaultPull := none,
         altFunctions := [], description := none }] :=
  ⟨rfl, rfl⟩

/-- C4 (amended): whenever the machine is in HeaderFound and the next line is
    not a pipe-delimited line containing dash characters, the machine stays in
    HeaderFound with the extracted rows unchanged; the header state persists
    until a separator line arrives. -/
theorem pinoutStep_headerFound_persists (st : ScanState) (line : String)
    (hIn : st.inTable = false) (hHf : st.headerFound = true)
    (hSep : (goContains (goTrimSpace line) "|" && goContains (goTrimSpace line) "-") = false) :
    pinoutStep st line = st := by
  obtain ⟨i, hf, p⟩ := st
  simp only at hIn hHf
  subst hIn hHf
  simp only [pinoutStep]
  split_ifs with h1 h2 h3 h4 <;> simp_all

/-- Witness for the C4 amended theorem at the concrete line of the
    counterexample scenario. -/
theorem pinoutStep_headerFound_persists_witness :
    ((goContains (goTrimSpace "some text") "|" && goContains (goTrimSpace "some text") "-") = false) ∧
    pinoutStep { inTable := false, headerFound := true, pinouts := [] } "some text" =
      { inTable := false, headerFound := true, pinouts := [] } :=
  ⟨by decide,
   pinoutStep_headerFound_persists { inTable := false, headerFound := true, pinouts := [] }
     "some text" rfl rfl (by decide)⟩

/-- A concrete device record for evaluating the storage writer. -/
def deviceExample : Device :=
  { id := "sensors-temperature-ds18b20", domain := Domain.hardware,
    type := "temperature", name := "DS18B20", path := "docs/ds18b20.md",
    metadata := [("model", MetaVal.str "DS18B20")], content := "body" }

/-- The search_fts row InsertDevice builds for deviceExample. -/
def ftsRowExample : FtsRow :=
  { deviceId := "sensors-temperature-ds18b20", name := "DS18B20",
    content := "body", tags := "" }

/-- C6: evaluation of the storage writer at the divergence point.  The devices
    INSERT names a content column the schema does not define, so InsertDevice
    fails and persists nothing; and even where the search_fts INSERT runs, a
    second insert for the same device id appends a second row (FTS5 declares
    no unique key, so OR REPLACE never fires) instead of replacing it. -/
theorem InsertDevice_not_an_upsert :
    InsertDevice dbEmpty deviceExample =
      Except.error "failed to insert device: table devices has no column named content" ∧
    (execInsertSearchFts (execInsertSearchFts dbEmpty ftsRowExample) ftsRowExample).searchFts =
      [ftsRowExample, ftsRowExample] :=
  ⟨rfl, rfl⟩

/-- C7 counterexample: with both delimiters present and a YAML block the
    unmarshaller rejects, extractFrontmatter propagates an error, so the file
    parse aborts rather than falling back to an empty metadata block. -/
theorem extractFrontmatter_malformed_yaml_errors :
    extractFrontmatter (fun _ => Except.error "yaml error")
        "---\nmodel: DS18B20\n---\nBody text" =
      Except.error "failed to parse YAML frontmatter: yaml error" ∧
    parseMarkdownContent (fun _ => Except.error "yaml error")
        "---\nmodel: DS18B20\n---\nBody text" =
      Except.error "failed to extract frontmatter: failed to parse YAML frontmatter: yaml error" :=
  ⟨rfl, rfl⟩

/-- C7 (amended): when the opening delimiter is absent or the closing
    delimiter is never found, the whole input becomes the body with an empty
    frontmatter and the parse always succeeds, for every unmarshaller; only a
    present-but-malformed frontmatter block aborts the file. -/
theorem extractFrontmatter_recovers (yamlParse : String → Except String Frontmatter)
    (content : String)
    (h : goStartsWith content "---\n" = false ∨
         indexOfSub (content.data.drop 4) ("\n---".data) = none) :
    extractFrontmatter yamlParse content = Except.ok ({}, content) ∧
    parseMarkdownContent yamlParse content =
      Except.ok { metadata := [], content := content,
                  pinouts := extractPinouts (goLines content),
                  domain := Domain.hardware, type := "",
                  id := generateDeviceID "" "" } := by
  have h1 : extractFrontmatter yamlParse content = Except.ok ({}, content) := by
    rcases h with h | h
    · simp [extractFrontmatter, h]
    · cases hs : goStartsWith content "---\n" with
      | false => simp [extractFrontmatter, hs]
      | true => simp [extractFrontmatter, hs, h]
  refine ⟨h1, ?_⟩
  simp only [parseMarkdownContent, h1]
  rfl

/-- Witness for the C7 amended theorem: a file with no frontmatter delimiter
    parses with empty metadata even under an always-failing unmarshaller. -/
theorem extractFrontmatter_recovers_witness :
    (goStartsWith "# Sensor notes" "---\n" = false ∨
     indexOfSub (("# Sensor notes").data.drop 4) ("\n---".data) = none) ∧
    extractFrontmatter (fun _ => Except.error "boom") "# Sensor notes" =
      Except.ok ({}, "# Sensor notes") :=
  ⟨Or.inl (by decide),
   (extractFrontmatter_recovers (fun _ => Except.error "boom") "# Sensor notes"
     (Or.inl (by decide))).1⟩

/-- bumpDomain leaves the error counter alone. -/
theorem bumpDomain_errorCount (st : IndexState) (d : Domain) :
    (bumpDomain st d).errorCount = st.errorCount := by
  cases d <;> rfl

/-- bumpDomain leaves the success counter alone. -/
theorem bumpDomain_successCount (st : IndexState) (d : Domain) :
    (bumpDomain st d).successCount = st.successCount := by
  cases d <;> rfl

/-- bumpDomain leaves the total counter alone. -/
theorem bumpDomain_totalFiles (st : IndexState) (d : Domain) :
    (bumpDomain st d).totalFiles = st.totalFiles := by
  cases d <;> rfl

/-- bumpDomain leaves the devices table alone. -/
theorem bumpDomain_devices (st : IndexState) (d : Domain) :
    (bumpDomain st d).devices = st.devices := by
  cases d <;> rfl

/-- C8: for every state, markdown path, parsed document and failure point of
    the pinouts write, a pinouts write failure after a successful device write
    leaves the error counter untouched, still counts the file as a success,
    and leaves the written device exactly as in the all-success run: the
    device row stands and is not rolled back. -/
theorem pinoutFailure_keeps_device_and_success (st : IndexState) (path : String)
    (doc : ParsedDocument) (k : Nat)
    (hmd : goEndsWith (goToLower path) ".md" = true) :
    (processEntry st (WalkEntry.file path (Except.ok doc) true (PinWriteOutcome.failAfter k))).errorCount
        = st.errorCount ∧
    (processEntry st (WalkEntry.file path (Except.ok doc) true (PinWriteOutcome.failAfter k))).successCount
        = st.successCount + 1 ∧
    (processEntry st (WalkEntry.file path (Except.ok doc) true (PinWriteOutcome.failAfter k))).totalFiles
        = st.totalFiles + 1 ∧
    (processEntry st (WalkEntry.file path (Except.ok doc) true (PinWriteOutcome.failAfter k))).devices
        = upsertDeviceRow st.devices (mkDevice path doc) ∧
    (processEntry st (WalkEntry.file path (Except.ok doc) true (PinWriteOutcome.failAfter k))).devices
        = (processEntry st (WalkEntry.file path (Except.ok doc) true PinWriteOutcome.ok)).devices := by
  simp only [processEntry, hmd, Bool.not_true, Bool.false_eq_true, if_false]
  split_ifs <;>
    simp [bumpDomain_errorCount, bumpDomain_successCount, bumpDomain_totalFiles, bumpDomain_devices]

/-- A concrete parsed document with one pinout, for the C8 witness. -/
def parsedDocExample : ParsedDocument :=
  { metadata := [("model", MetaVal.str "DS18B20")], content := "body",
    pinouts := [{ physicalPin := 1, gpio := some 4, name := "GND",
                  defaultPull := none, altFunctions := [], description := none }],
    domain := Domain.hardware, type := "temperature",
    id := "sensors-temperature-ds18b20" }

/-- Witness for C8 at a concrete run: the pinouts write fails after zero rows
    yet the error counter stays at zero and the file counts as a success. -/
theorem pinoutFailure_keeps_device_and_success_witness :
    (goEndsWith (goToLower "docs/ds18b20.md") ".md" = true) ∧
    (processEntry initialIndexState
        (WalkEntry.file "docs/ds18b20.md" (Except.ok parsedDocExample) true
          (PinWriteOutcome.failAfter 0))).errorCount = initialIndexState.errorCount ∧
    (processEntry initialIndexState
        (WalkEntry.file "docs/ds18b20.md" (Except.ok parsedDocExample) true
          (PinWriteOutcome.failAfter 0))).successCount = initialIndexState.successCount + 1 :=
  ⟨by decide,
   (pinoutFailure_keeps_device_and_success initialIndexState "docs/ds18b20.md"
     parsedDocExample 0 (by decide)).1,
   (pinoutFailure_keeps_device_and_success initialIndexState "docs/ds18b20.md"
     parsedDocExample 0 (by decide)).2.1⟩

/-- The default-pull cell mapping only ever produces NULL or one of the three
    enum words, whatever the cell contains. -/
theorem parseDefaultPull_check (cell? : Option String) :
    defaultPullCheck (parseDefaultPull cell?) = true := by
  cases cell? with
  | none => rfl
  | some cell =>
    simp only [parseDefaultPull]
    split_ifs <;> rfl

/-- C9: every Pinout produced by row parsing satisfies the schema CHECK
    constraint on default_pull: the field is unset or exactly one of high,
    low, none, chosen in that precedence order. -/
theorem parsePinoutRow_defaultPull_valid (row : String) (p : Pinout)
    (h : parsePinoutRow row = some p) :
    defaultPullCheck p.defaultPull = true := by
  simp only [parsePinoutRow] at h
  split at h
  · split at h
    · exact absurd h (by simp)
    · injection h with h
      subst h
      exact parseDefaultPull_check _
  · exact absurd h (by simp)

/-- The Pinout record of the C9 witness row. -/
def pinoutRowExample : Pinout :=
  { physicalPin := 1, gpio := some 4, name := "GND",
    defaultPull := some "high", altFunctions := [], description := none }

/-- Witness for C9 at a concrete row whose pull cell reads pull high. -/
theorem parsePinoutRow_defaultPull_valid_witness :
    (parsePinoutRow "| 1 | 4 | GND | pull high |" = some pinoutRowExample) ∧
    defaultPullCheck pinoutRowExample.defaultPull = true :=
  ⟨by decide, parsePinoutRow_defaultPull_valid "| 1 | 4 | GND | pull high |" pinoutRowExample (by decide)⟩

/-- One walk callback preserves the counter partition: whenever the success
    and error counters partition the total so far, they still do afterwards. -/
theorem processEntry_counters (st : IndexState) (e : WalkEntry)
    (h : st.successCount + st.errorCount = st.totalFiles) :
    (processEntry st e).successCount + (processEntry st e).errorCount =
      (processEntry st e).totalFiles := by
  cases e with
  | accessError p => simpa [processEntry] using h
  | dir p => simpa [processEntry] using h
  | file path parsed devOk pinW =>
    cases hmd : goEndsWith (goToLower path) ".md" with
    | false => simpa [processEntry, hmd] using h
    | true =>
      cases parsed with
      | error msg =>
        simp [processEntry, hmd]
        omega
      | ok doc =>
        cases devOk with
        | false =>
          simp [processEntry, hmd]
          omega
        | true =>
          simp [processEntry, hmd, bumpDomain_successCount, bumpDomain_errorCount,
            bumpDomain_totalFiles]
          omega

/-- Folding the walk preserves the counter partition. -/
theorem foldl_processEntry_counters (entries : List WalkEntry) (st : IndexState)
    (h : st.successCount + st.errorCount = st.totalFiles) :
    (entries.foldl processEntry st).successCount + (entries.foldl processEntry st).errorCount =
      (entries.foldl processEntry st).totalFiles := by
  induction entries generalizing st with
  | nil => simpa using h
  | cons e rest ih => exact ih (processEntry st e) (processEntry_counters st e h)

/-- C10: at the end of every run the counters satisfy success plus error
    equals total, and access errors, directories and files without a markdown
    suffix leave the run state untouched. -/
theorem indexRun_counters_partition :
    (∀ entries, (runIndexWalk entries).successCount + (runIndexWalk entries).errorCount =
        (runIndexWalk entries).totalFiles) ∧
    (∀ st path, processEntry st (WalkEntry.dir path) = st) ∧
    (∀ st path, processEntry st (WalkEntry.accessError path) = st) ∧
    (∀ st parsed devOk pinW,
      processEntry st (WalkEntry.file "notes.txt" parsed devOk pinW) = st) := by
  refine ⟨fun entries => foldl_processEntry_counters entries initialIndexState rfl, ?_, ?_, ?_⟩
  · intro st path; rfl
  · intro st path; rfl
  · intro st parsed devOk pinW
    have hx : goEndsWith (goToLower "notes.txt") ".md" = false := by decide
    simp [processEntry, hx]
